import Mathlib

/-!
Verification development for the sensor-logging and sample-aggregation
pipeline of the Roadify road-health monitoring app
(src/context/SensorLoggerContext.tsx).

Two layers are embedded:

* A state machine over `ℚ` for the session lifecycle: the provider state
  (log, logging flag, session id, sample buffer, smoothed speed, retained
  location fix, vehicle type, producer subscriptions) and the operations
  `startNew`, `pause`, `resume`, `clear`, the accelerometer callback and the
  batch uploader `uploadBatchToFirestore`.  External effects (persistence
  outcomes, permission grants, position fixes, clock reads) are explicit
  parameters; a persistence call is counted and the produced batch document
  returned so that upload behaviour is observable.

* Real-valued models of the numeric helpers: `getDistanceFromLatLonInMeters`
  (haversine), the speed derivation performed by the location-watch callback,
  and the exponential smoothing step with `SMOOTHING_FACTOR = 0.8`.
-/

/-- One motion sample, as pushed by the accelerometer callback. -/
structure LogEntry where
  x : ℚ
  y : ℚ
  z : ℚ
  timestamp : ℤ
  latitude : ℚ
  longitude : ℚ
  speed : ℚ
  vehicletype : String
deriving DecidableEq

/-- A persisted batch document: one per successful uploader flush. -/
structure BatchDoc where
  timestamp : ℤ
  data : List LogEntry
  yValues : List ℚ
  latitude : ℚ
  longitude : ℚ
  speed : ℚ
  vehicletype : String
  sessionId : String
deriving DecidableEq

/-- The provider-owned state: React state (`log`, `logging`, `sessionId`)
together with the mutable refs (`sampleBuffer`, `latestLocation`,
`latestSpeed`, `lastLocationRef`, `currentVehicleTypeRef`) and whether the
accelerometer / location producers are currently subscribed. -/
structure LoggerState where
  log : List LogEntry
  logging : Bool
  sessionId : Option String
  latestLocation : ℚ × ℚ
  latestSpeed : ℚ
  sampleBuffer : List LogEntry
  currentVehicleType : String
  lastLocation : Option (ℚ × ℚ × ℤ)
  accelSub : Bool
  locSub : Bool
deriving DecidableEq

/-- The initial provider state: empty log, not logging, no session,
`latestLocation` zeroed, speed 0, empty buffer, no subscriptions. -/
def initState : LoggerState :=
  { log := []
    logging := false
    sessionId := none
    latestLocation := (0, 0)
    latestSpeed := 0
    sampleBuffer := []
    currentVehicleType := ""
    lastLocation := none
    accelSub := false
    locSub := false }

/-- A position fix as returned by the platform location API: coordinates and
an optional raw speed in m/s (`null` when the provider has none). -/
structure PositionFix where
  latitude : ℚ
  longitude : ℚ
  speed : Option ℚ
deriving DecidableEq

/-- Raw accelerometer reading delivered to the motion listener. -/
structure AccelData where
  x : ℚ
  y : ℚ
  z : ℚ
deriving DecidableEq

/-- The `LogEntry` the accelerometer callback builds from a reading and the
current state (`currentVehicleTypeRef.current || ""` is the source's string
truthiness fallback). -/
def mkEntry (d : AccelData) (now : ℤ) (s : LoggerState) : LogEntry :=
  { x := d.x
    y := d.y
    z := d.z
    timestamp := now
    latitude := s.latestLocation.1
    longitude := s.latestLocation.2
    speed := s.latestSpeed
    vehicletype := if s.currentVehicleType = "" then "" else s.currentVehicleType }

/-- `uploadBatchToFirestore`: returns early when no session id is set or the
buffer is empty; otherwise performs one `addDoc` persistence call with the
buffered samples and the parallel `y_values` projection.  On success the
buffer is cleared; on failure (caught) the state is left unchanged.  The
result carries the new state, the number of persistence calls made, and the
document created (if any). -/
def uploadBatchToFirestore (persistOk : Bool) (now : ℤ) (s : LoggerState) :
    LoggerState × Nat × Option BatchDoc :=
  match s.sessionId with
  | none => (s, 0, none)
  | some sid =>
    if s.sampleBuffer.length = 0 then (s, 0, none)
    else
      let yValues := s.sampleBuffer.map (fun e => e.y)
      let d : BatchDoc :=
        { timestamp := now
          data := s.sampleBuffer
          yValues := yValues
          latitude := s.latestLocation.1
          longitude := s.latestLocation.2
          speed := s.latestSpeed
          vehicletype := s.currentVehicleType
          sessionId := sid }
      if persistOk then ({ s with sampleBuffer := [] }, 1, some d)
      else (s, 1, none)

/-- `startNew(vehicleType)`: stores the vehicle type in its ref, then attempts
to persist the Session parent record (`setDoc`).  On failure it returns (the
catch block logs and aborts).  On success it sets the session id, resets log,
buffer, smoothed speed and retained fix, optionally seeds the location and
speed from an initial fix when the location permission is granted, and then
sets the logging flag to true. -/
def startNew (vehicleType formattedDate : String) (setDocOk permissionGranted : Bool)
    (loc : PositionFix) (s : LoggerState) : LoggerState :=
  let s0 := { s with currentVehicleType := vehicleType }
  if setDocOk then
    let s1 := { s0 with
      sessionId := some formattedDate
      log := []
      sampleBuffer := []
      latestSpeed := 0
      lastLocation := none }
    let s2 :=
      if permissionGranted then
        { s1 with
          latestLocation := (loc.latitude, loc.longitude)
          latestSpeed :=
            match loc.speed with
            | some v => if v = 0 then 0 else v * 3.6
            | none => 0 }
      else s1
    { s2 with logging := true }
  else s0

/-- `setupSensors` (the effect body run when `logging` flips): returns at once
when not logging; requests the location permission and, when it is not
granted, warns and returns without subscribing either producer; otherwise
subscribes the location watcher and the accelerometer listener. -/
def setupSensors (permissionGranted : Bool) (s : LoggerState) : LoggerState :=
  if !s.logging then s
  else if !permissionGranted then s
  else { s with locSub := true, accelSub := true }

/-- The accelerometer listener body: ignores the reading when the effect is
inactive or logging is off, discards it when the latest smoothed speed is
below 5 km/h, and otherwise appends the built entry to the sample buffer and
to the exposed log. -/
def accelCallback (active : Bool) (d : AccelData) (now : ℤ) (s : LoggerState) :
    LoggerState :=
  if !active || !s.logging then s
  else if s.latestSpeed < 5 then s
  else
    let entry := mkEntry d now s
    { s with
      sampleBuffer := s.sampleBuffer ++ [entry]
      log := s.log ++ [entry] }

/-- `pause()`: stops logging and discards the buffered samples. -/
def pause (s : LoggerState) : LoggerState :=
  { s with logging := false, sampleBuffer := [] }

/-- `resume()`: sets the logging flag back to true, touching nothing else. -/
def resume (s : LoggerState) : LoggerState :=
  { s with logging := true }

/-- `clear()`: stops logging, empties the log, drops the session id, empties
the buffer, zeroes the smoothed speed, forgets the retained fix and the
vehicle type, and removes both producer subscriptions. -/
def clear (s : LoggerState) : LoggerState :=
  { s with
    logging := false
    log := []
    sessionId := none
    sampleBuffer := []
    latestSpeed := 0
    lastLocation := none
    currentVehicleType := ""
    accelSub := false
    locSub := false }

/-- Events a running session processes: accelerometer callbacks and uploader
ticks (each tick carrying its external persistence outcome and clock read). -/
inductive Ev where
  | accel (active : Bool) (d : AccelData) (t : ℤ)
  | tick (persistOk : Bool) (t : ℤ)
deriving DecidableEq

/-- One event step: the resulting state and the number of persistence calls
the step performed. -/
def stepEv (e : Ev) (s : LoggerState) : LoggerState × Nat :=
  match e with
  | .accel a d t => (accelCallback a d t s, 0)
  | .tick ok t =>
      let r := uploadBatchToFirestore ok t s
      (r.1, r.2.1)

/-- Run a list of events, accumulating the total persistence-call count. -/
def runEvents : List Ev → LoggerState → LoggerState × Nat
  | [], s => (s, 0)
  | e :: es, s =>
      let r := stepEv e s
      let r2 := runEvents es r.1
      (r2.1, r.2 + r2.2)

/-- Degrees to radians, as in the source helper `deg2rad`. -/
noncomputable def deg2rad (deg : ℝ) : ℝ := deg * (Real.pi / 180)

/-- JavaScript `Math.atan2(y, x)` over the reals. -/
noncomputable def atan2 (y x : ℝ) : ℝ :=
  if 0 < x then Real.arctan (y / x)
  else if x < 0 then
    (if 0 ≤ y then Real.arctan (y / x) + Real.pi
     else Real.arctan (y / x) - Real.pi)
  else
    (if 0 < y then Real.pi / 2
     else if y < 0 then -(Real.pi / 2)
     else 0)

/-- Haversine distance in meters between two lat/lon points, as in the source
helper `getDistanceFromLatLonInMeters` (earth radius 6371 km). -/
noncomputable def getDistanceFromLatLonInMeters (lat1 lon1 lat2 lon2 : ℝ) : ℝ :=
  let R : ℝ := 6371
  let dLat := deg2rad (lat2 - lat1)
  let dLon := deg2rad (lon2 - lon1)
  let a :=
    Real.sin (dLat / 2) * Real.sin (dLat / 2) +
      Real.cos (deg2rad lat1) * Real.cos (deg2rad lat2) *
        Real.sin (dLon / 2) * Real.sin (dLon / 2)
  let c := 2 * atan2 (Real.sqrt a) (Real.sqrt (1 - a))
  let d := R * c
  d * 1000

/-- A previously retained location fix (`lastLocationRef.current`):
coordinates in degrees and an epoch-millisecond time. -/
structure LastFix where
  lat : ℝ
  lng : ℝ
  time : ℤ

/-- The fallback speed computation of the location-watch callback when the
provider gave no usable raw speed: with no previous fix the speed stays 0;
with one, the haversine distance over the positive time delta (seconds),
converted to km/h; a non-positive time delta yields 0. -/
noncomputable def speedFromLastFix (lastFix : Option LastFix)
    (latitude longitude : ℝ) (timestamp : ℤ) : ℝ :=
  match lastFix with
  | none => 0
  | some f =>
      let distMeters := getDistanceFromLatLonInMeters f.lat f.lng latitude longitude
      let timeDiffSeconds := ((timestamp : ℝ) - (f.time : ℝ)) / 1000
      if 0 < timeDiffSeconds then distMeters / timeDiffSeconds * 3.6 else 0

/-- Speed derivation of the location-watch callback: a provider raw speed that
is present and non-negative is converted m/s to km/h directly; otherwise the
fallback from the previous fix applies. -/
noncomputable def deriveSpeedKmh (speed : Option ℝ) (lastFix : Option LastFix)
    (latitude longitude : ℝ) (timestamp : ℤ) : ℝ :=
  match speed with
  | some v =>
      if 0 ≤ v then v * 3.6
      else speedFromLastFix lastFix latitude longitude timestamp
  | none => speedFromLastFix lastFix latitude longitude timestamp

/-- The exponential smoothing constant of the location callback. -/
noncomputable def SMOOTHING_FACTOR : ℝ := 0.8

/-- One exponential-moving-average step:
`previousSmoothed * (1 - SMOOTHING_FACTOR) + newRaw * SMOOTHING_FACTOR`. -/
noncomputable def smooth (previousSmoothed newRaw : ℝ) : ℝ :=
  previousSmoothed * (1 - SMOOTHING_FACTOR) + newRaw * SMOOTHING_FACTOR

/-- A fixed sample used to instantiate buffer/log facts on concrete inputs. -/
def e0 : LogEntry :=
  { x := 0
    y := 1
    z := 0
    timestamp := 0
    latitude := 0
    longitude := 0
    speed := 9
    vehicletype := "car" }

/-- A state with an active session id and an empty sample buffer. -/
def sEmptyBuf : LoggerState :=
  { initState with sessionId := some ("s1") }

/-- A state with an active session id and one buffered sample. -/
def sOneBuf : LoggerState :=
  { initState with sessionId := some ("s1"), sampleBuffer := [e0] }

/-- `uploadBatchToFirestore` is a no-op performing no persistence call when no
session id is set. -/
theorem upload_no_session (ok : Bool) (t : ℤ) (s : LoggerState)
    (h : s.sessionId = none) : uploadBatchToFirestore ok t s = (s, 0, none) := by
  simp [uploadBatchToFirestore, h]

/-- The accelerometer callback never changes the session id. -/
theorem accelCallback_sessionId (a : Bool) (d : AccelData) (t : ℤ)
    (s : LoggerState) : (accelCallback a d t s).sessionId = s.sessionId := by
  unfold accelCallback
  split
  · rfl
  · split
    · rfl
    · rfl

/-- Running any event sequence from a state with no session id keeps the
session id absent and performs zero persistence calls. -/
theorem runEvents_no_session (evs : List Ev) (s : LoggerState)
    (h : s.sessionId = none) :
    (runEvents evs s).1.sessionId = none ∧ (runEvents evs s).2 = 0 := by
  induction evs generalizing s with
  | nil => exact ⟨h, rfl⟩
  | cons e es ih =>
    cases e with
    | accel a d t =>
      have h2 : (accelCallback a d t s).sessionId = none := by
        rw [accelCallback_sessionId]; exact h
      have h3 := ih (accelCallback a d t s) h2
      simp [runEvents, stepEv, h3.1, h3.2]
    | tick ok t =>
      have hu := upload_no_session ok t s h
      have h3 := ih s h
      simp [runEvents, stepEv, hu, h3.1, h3.2]

/-- C1 counterexample: with the Session write succeeding but the location
permission denied, `startNew` still sets the logging flag to true — the claim
that the flag stays false is refuted at this concrete input. -/
theorem c1_counterexample :
    (startNew ("car") ("2025-01-01-00-00-00") true false
        { latitude := 0, longitude := 0, speed := none } initState).logging = true := by
  decide

/-- C1 (amended): when the location permission is not granted, the motion and
location producers are never subscribed by `setupSensors` (the denial is
reported as a warning, non-fatally), but `startNew` nevertheless sets the
logging flag to true — only the initial position fetch is skipped. -/
theorem c1_no_subscription_but_logging (vehicleType formattedDate : String)
    (loc : PositionFix) (s : LoggerState)
    (ha : s.accelSub = false) (hl : s.locSub = false) :
    (startNew vehicleType formattedDate true false loc s).logging = true ∧
    (setupSensors false
        (startNew vehicleType formattedDate true false loc s)).accelSub = false ∧
    (setupSensors false
        (startNew vehicleType formattedDate true false loc s)).locSub = false := by
  have hss : ∀ t : LoggerState, setupSensors false t = t := by
    intro t; unfold setupSensors; simp
  refine ⟨rfl, ?_, ?_⟩
  · rw [hss]; exact ha
  · rw [hss]; exact hl

/-- C1 witness: the amended statement at a concrete input. -/
theorem c1_witness :
    (startNew ("car") ("2025-01-01-00-00-00")
        true false { latitude := 0, longitude := 0, speed := none } initState).logging
      = true ∧
    (setupSensors false (startNew ("car") ("2025-01-01-00-00-00")
        true false { latitude := 0, longitude := 0, speed := none } initState)).accelSub
      = false ∧
    (setupSensors false (startNew ("car") ("2025-01-01-00-00-00")
        true false { latitude := 0, longitude := 0, speed := none } initState)).locSub
      = false :=
  c1_no_subscription_but_logging ("car") ("2025-01-01-00-00-00")
    { latitude := 0, longitude := 0, speed := none } initState rfl rfl

/-- C2 counterexample: when persisting the Session parent record fails, the
stored vehicle type is NOT left unchanged — it was already overwritten before
the write was attempted. -/
theorem c2_counterexample :
    (startNew ("car") ("2025-01-01-00-00-00") false true
          { latitude := 0, longitude := 0, speed := none }
          { initState with currentVehicleType := "bike" }).currentVehicleType
        = "car" ∧
    ¬ ((startNew ("car") ("2025-01-01-00-00-00") false true
          { latitude := 0, longitude := 0, speed := none }
          { initState with currentVehicleType := "bike" }).currentVehicleType
        = "bike") := by
  decide

/-- C2 (amended): when persisting the Session parent record fails, `startNew`
aborts before any state transition — logging, log, buffer, session id,
smoothed speed, retained fix and latest location are all unchanged — except
that the stored vehicle type has already been overwritten with the new
argument before the persistence attempt. -/
theorem c2_abort_keeps_state_except_vehicle (vehicleType formattedDate : String)
    (permissionGranted : Bool) (loc : PositionFix) (s : LoggerState) :
    (startNew vehicleType formattedDate false permissionGranted loc s).logging
        = s.logging ∧
    (startNew vehicleType formattedDate false permissionGranted loc s).log = s.log ∧
    (startNew vehicleType formattedDate false permissionGranted loc s).sampleBuffer
        = s.sampleBuffer ∧
    (startNew vehicleType formattedDate false permissionGranted loc s).sessionId
        = s.sessionId ∧
    (startNew vehicleType formattedDate false permissionGranted loc s).latestSpeed
        = s.latestSpeed ∧
    (startNew vehicleType formattedDate false permissionGranted loc s).lastLocation
        = s.lastLocation ∧
    (startNew vehicleType formattedDate false permissionGranted loc s).latestLocation
        = s.latestLocation ∧
    (startNew vehicleType formattedDate false permissionGranted loc s).currentVehicleType
        = vehicleType :=
  ⟨rfl, rfl, rfl, rfl, rfl, rfl, rfl, rfl⟩

/-- C3 counterexample: after a failed upload tick the drained samples are NOT
lost — the buffer still holds them and the next successful tick uploads the
very same samples, refuting never-re-uploaded at this concrete input. -/
theorem c3_counterexample :
    (uploadBatchToFirestore false 4 sOneBuf).1.sampleBuffer = [e0] ∧
    Option.map BatchDoc.data
        (uploadBatchToFirestore true 5 (uploadBatchToFirestore false 4 sOneBuf).1).2.2
      = some [e0] := by
  decide

/-- C3 (amended): when a batch-upload persistence attempt fails, the failure
is caught (the tick returns normally after one persistence call, creating no
document) and the sample buffer is left unchanged — the samples are retained,
not dropped, and the same samples are re-attempted on the next successful
tick. -/
theorem c3_failed_upload_retains_buffer (s : LoggerState) (now now2 : ℤ)
    (sid : String) (hsid : s.sessionId = some sid) (hne : s.sampleBuffer ≠ []) :
    (uploadBatchToFirestore false now s).1 = s ∧
    (uploadBatchToFirestore false now s).2.1 = 1 ∧
    (uploadBatchToFirestore false now s).2.2 = none ∧
    Option.map BatchDoc.data
        (uploadBatchToFirestore true now2 (uploadBatchToFirestore false now s).1).2.2
      = some s.sampleBuffer := by
  simp [uploadBatchToFirestore, hsid, List.length_eq_zero, hne]

/-- C3 witness: the amended statement at a concrete input. -/
theorem c3_witness :
    (uploadBatchToFirestore false 4 sOneBuf).1 = sOneBuf ∧
    (uploadBatchToFirestore false 4 sOneBuf).2.1 = 1 ∧
    (uploadBatchToFirestore false 4 sOneBuf).2.2 = none ∧
    Option.map BatchDoc.data
        (uploadBatchToFirestore true 5 (uploadBatchToFirestore false 4 sOneBuf).1).2.2
      = some sOneBuf.sampleBuffer :=
  c3_failed_upload_retains_buffer sOneBuf 4 5 ("s1") rfl (by decide)

/-- C4: a motion sample delivered while the latest smoothed speed is below
5 km/h is discarded — the state (in particular buffer and log) is unchanged. -/
theorem c4_speed_gate (active : Bool) (d : AccelData) (now : ℤ)
    (s : LoggerState) (h : s.latestSpeed < 5) :
    accelCallback active d now s = s := by
  simp [accelCallback, h]

/-- C4 witness: the speed gate at a concrete input. -/
theorem c4_witness :
    accelCallback true { x := 1, y := 2, z := 3 } 7
        { initState with logging := true, latestSpeed := 3 }
      = { initState with logging := true, latestSpeed := 3 } :=
  c4_speed_gate true { x := 1, y := 2, z := 3 } 7
    { initState with logging := true, latestSpeed := 3 } (by decide)

/-- C5: an uploader tick with an empty buffer performs zero persistence calls
and creates no document; with a session id set, a successful tick over N
buffered samples performs exactly one persistence call whose single document
holds exactly those N samples (with the parallel yValues projection), and the
buffer is empty immediately after. -/
theorem c5_tick_semantics (s : LoggerState) (ok : Bool) (now : ℤ) :
    (s.sampleBuffer = [] → uploadBatchToFirestore ok now s = (s, 0, none)) ∧
    (∀ sid, s.sessionId = some sid → s.sampleBuffer ≠ [] →
      (uploadBatchToFirestore true now s).2.1 = 1 ∧
      Option.map BatchDoc.data (uploadBatchToFirestore true now s).2.2
        = some s.sampleBuffer ∧
      Option.map BatchDoc.yValues (uploadBatchToFirestore true now s).2.2
        = some (s.sampleBuffer.map (fun e => e.y)) ∧
      (uploadBatchToFirestore true now s).1.sampleBuffer = []) := by
  constructor
  · intro he
    cases hs : s.sessionId <;> simp [uploadBatchToFirestore, hs, he]
  · intro sid hsid hne
    simp [uploadBatchToFirestore, hsid, List.length_eq_zero, hne]

/-- C5 witness: both tick cases at concrete inputs. -/
theorem c5_witness :
    uploadBatchToFirestore true 0 sEmptyBuf = (sEmptyBuf, 0, none) ∧
    ((uploadBatchToFirestore true 0 sOneBuf).2.1 = 1 ∧
     Option.map BatchDoc.data (uploadBatchToFirestore true 0 sOneBuf).2.2
       = some sOneBuf.sampleBuffer ∧
     Option.map BatchDoc.yValues (uploadBatchToFirestore true 0 sOneBuf).2.2
       = some (sOneBuf.sampleBuffer.map (fun e => e.y)) ∧
     (uploadBatchToFirestore true 0 sOneBuf).1.sampleBuffer = []) :=
  ⟨(c5_tick_semantics sEmptyBuf true 0).1 rfl,
   (c5_tick_semantics sOneBuf true 0).2 ("s1") rfl (by decide)⟩

/-- C6: after `pause()` the sample buffer is empty regardless of its prior
contents, and the exposed log is unchanged. -/
theorem c6_pause_drops_buffer_keeps_log (s : LoggerState) :
    (pause s).sampleBuffer = [] ∧ (pause s).log = s.log :=
  ⟨rfl, rfl⟩

/-- C7: `clear()` from any state resets the log to empty and logging to
false, and fully resets buffer, session id, smoothed speed, retained fix and
vehicle type, removing both producer subscriptions. -/
theorem c7_clear_resets (s : LoggerState) :
    (clear s).log = [] ∧ (clear s).logging = false ∧
    (clear s).sampleBuffer = [] ∧ (clear s).sessionId = none ∧
    (clear s).latestSpeed = 0 ∧ (clear s).lastLocation = none ∧
    (clear s).currentVehicleType = "" ∧
    (clear s).accelSub = false ∧ (clear s).locSub = false :=
  ⟨rfl, rfl, rfl, rfl, rfl, rfl, rfl, rfl, rfl⟩

/-- C8: the location-callback speed derivation — a present non-negative raw
speed (m/s) converts directly by 3.6; otherwise with a previous fix and a
positive time delta the speed is haversine distance over the delta times 3.6;
a non-positive delta, or no previous fix, yields 0. -/
theorem c8_speed_derivation :
    (∀ (v : ℝ) (lastFix : Option LastFix) (lat lon : ℝ) (ts : ℤ), 0 ≤ v →
        deriveSpeedKmh (some v) lastFix lat lon ts = v * 3.6) ∧
    (∀ (sp : Option ℝ) (f : LastFix) (lat lon : ℝ) (ts : ℤ),
        (sp = none ∨ ∃ v, sp = some v ∧ v < 0) →
        0 < ((ts : ℝ) - (f.time : ℝ)) / 1000 →
        deriveSpeedKmh sp (some f) lat lon ts =
          getDistanceFromLatLonInMeters f.lat f.lng lat lon /
            (((ts : ℝ) - (f.time : ℝ)) / 1000) * 3.6) ∧
    (∀ (sp : Option ℝ) (f : LastFix) (lat lon : ℝ) (ts : ℤ),
        (sp = none ∨ ∃ v, sp = some v ∧ v < 0) →
        ((ts : ℝ) - (f.time : ℝ)) / 1000 ≤ 0 →
        deriveSpeedKmh sp (some f) lat lon ts = 0) ∧
    (∀ (sp : Option ℝ) (lat lon : ℝ) (ts : ℤ),
        (sp = none ∨ ∃ v, sp = some v ∧ v < 0) →
        deriveSpeedKmh sp none lat lon ts = 0) := by
  refine ⟨?_, ?_, ?_, ?_⟩
  · intro v lastFix lat lon ts hv
    simp [deriveSpeedKmh, hv]
  · intro sp f lat lon ts hsp hdt
    rcases hsp with rfl | ⟨v, rfl, hv⟩
    · simp [deriveSpeedKmh, speedFromLastFix, hdt]
    · simp [deriveSpeedKmh, speedFromLastFix, not_le.mpr hv, hdt]
  · intro sp f lat lon ts hsp hdt
    rcases hsp with rfl | ⟨v, rfl, hv⟩
    · simp [deriveSpeedKmh, speedFromLastFix, not_lt.mpr hdt]
    · simp [deriveSpeedKmh, speedFromLastFix, not_le.mpr hv, not_lt.mpr hdt]
  · intro sp lat lon ts hsp
    rcases hsp with rfl | ⟨v, rfl, hv⟩
    · simp [deriveSpeedKmh, speedFromLastFix]
    · simp [deriveSpeedKmh, speedFromLastFix, not_le.mpr hv]

/-- C8 witness: all four derivation branches at concrete inputs. -/
theorem c8_witness :
    deriveSpeedKmh (some 10) none 0 0 0 = 10 * 3.6 ∧
    deriveSpeedKmh none (some { lat := 0, lng := 0, time := 0 }) 1 1 1000 =
      getDistanceFromLatLonInMeters 0 0 1 1 /
        ((((1000 : ℤ) : ℝ) - ((0 : ℤ) : ℝ)) / 1000) * 3.6 ∧
    deriveSpeedKmh (some (-1)) (some { lat := 0, lng := 0, time := 0 }) 1 1 0 = 0 ∧
    deriveSpeedKmh none none 0 0 5 = 0 :=
  ⟨c8_speed_derivation.1 10 none 0 0 0 (by norm_num),
   c8_speed_derivation.2.1 none { lat := 0, lng := 0, time := 0 } 1 1 1000
     (Or.inl rfl) (by norm_num),
   c8_speed_derivation.2.2.1 (some (-1)) { lat := 0, lng := 0, time := 0 } 1 1 0
     (Or.inr ⟨-1, rfl, by norm_num⟩) (by norm_num),
   c8_speed_derivation.2.2.2 none 0 0 5 (Or.inl rfl)⟩

/-- C9: the exponential smoothing step with alpha 0.8 has every value as a
fixed point when the new raw sample equals the previous smoothed value. -/
theorem c9_smooth_fixed_point (v : ℝ) : smooth v v = v := by
  unfold smooth SMOOTHING_FACTOR
  ring

/-- C10: an uploader tick with no session id set makes no persistence call
and changes nothing, whatever the buffer holds; `resume` from a no-session
state turns logging on while leaving the session id absent, so accepted
samples still append to the buffer but no event sequence ever performs a
persistence call. -/
theorem c10_no_session_never_persists (s : LoggerState) (h : s.sessionId = none) :
    (resume s).logging = true ∧
    (resume s).sessionId = none ∧
    (∀ (ok : Bool) (t : ℤ),
        uploadBatchToFirestore ok t (resume s) = (resume s, 0, none)) ∧
    (∀ evs : List Ev, (runEvents evs (resume s)).2 = 0) ∧
    (∀ (d : AccelData) (t : ℤ), ¬ (resume s).latestSpeed < 5 →
        (accelCallback true d t (resume s)).sampleBuffer
          = (resume s).sampleBuffer ++ [mkEntry d t (resume s)]) := by
  have hr : (resume s).sessionId = none := h
  refine ⟨rfl, hr, fun ok t => upload_no_session ok t _ hr,
    fun evs => (runEvents_no_session evs _ hr).2, ?_⟩
  intro d t hsp
  have hsp2 : ¬ s.latestSpeed < 5 := hsp
  simp [accelCallback, resume, hsp2, mkEntry]

/-- C10 witness: the statement at a concrete no-session state with speed
above the gate. -/
theorem c10_witness :
    (resume { initState with latestSpeed := 10 }).logging = true ∧
    (resume { initState with latestSpeed := 10 }).sessionId = none ∧
    uploadBatchToFirestore true 3 (resume { initState with latestSpeed := 10 })
      = (resume { initState with latestSpeed := 10 }, 0, none) ∧
    (runEvents
        [Ev.tick true 0, Ev.accel true { x := 1, y := 2, z := 3 } 1, Ev.tick true 2]
        (resume { initState with latestSpeed := 10 })).2 = 0 ∧
    (accelCallback true { x := 1, y := 2, z := 3 } 1
        (resume { initState with latestSpeed := 10 })).sampleBuffer
      = (resume { initState with latestSpeed := 10 }).sampleBuffer
          ++ [mkEntry { x := 1, y := 2, z := 3 } 1
                (resume { initState with latestSpeed := 10 })] := by
  have h := c10_no_session_never_persists { initState with latestSpeed := 10 } rfl
  exact ⟨h.1, h.2.1, h.2.2.1 true 3,
    h.2.2.2.1
      [Ev.tick true 0, Ev.accel true { x := 1, y := 2, z := 3 } 1, Ev.tick true 2],
    h.2.2.2.2 { x := 1, y := 2, z := 3 } 1 (by decide)⟩
